import Mathlib

/-!
Shallow embedding of the autoworld-crawl synchronization engine
(the Shopify importer in the repository sources: the SQLite mapping
helpers, the money formatter, the payload builders, the function
createOrUpdateProduct, and the batch import loop of the webhook
handler and CLI).  Fallible TypeScript code is embedded as
Except-valued Lean functions, the SQLite table as an explicit list of
rows threaded through each operation, JavaScript numbers used for
prices as exact rationals, and remote HTTP responses as an explicit
environment (RemoteBehavior) supplied by the caller.
-/

namespace Autoworld

/-- JavaScript truthiness of an optional string: undefined and the
empty string are falsy (models checks of the form if (!s)). -/
def jsTruthyStr : Option String → Bool
  | none => false
  | some s => s != ""

/-- JavaScript truthiness of an optional number: undefined, null and 0
are falsy (models checks of the form if (!n)). -/
def jsTruthyNat : Option Nat → Bool
  | none => false
  | some n => n != 0

/-- A JavaScript number-typed value as it can reach formatMoney:
undefined, null, NaN, or an actual (here: exact rational) number. -/
inductive JsNumber where
  | undef
  | null
  | nan
  | num (q : ℚ)
deriving DecidableEq

/-- JavaScript Math.round: round half toward positive infinity. -/
def jsRound (q : ℚ) : ℤ := Int.floor (q + 1 / 2)

/-- Left-pad a two-digit cents value with a zero, as toFixed(2) does. -/
def pad2 (n : Nat) : String :=
  if n < 10 then "0" ++ toString n else "" ++ toString n

/-- Render a rational whose denominator divides 100 with exactly two
decimal places, as Number.prototype.toFixed(2) renders it. -/
def toFixed2 (q : ℚ) : String :=
  let cents : ℤ := jsRound (q * 100)
  let a := cents.natAbs
  let sign := if cents < 0 then "-" else ""
  sign ++ toString (a / 100) ++ "." ++ pad2 (a % 100)

/-- Embedding of formatMoney: undefined, null and NaN give undefined
(the caller then omits the field); otherwise the value is rounded to
the nearest hundredth by Math.round(value * 100) / 100 and rendered
with toFixed(2). -/
def formatMoney : JsNumber → Option String
  | .undef => none
  | .null => none
  | .nan => none
  | .num q => some (toFixed2 ((jsRound (q * 100) : ℚ) / 100))

/-- One image reference on an incoming record. -/
structure ImageRef where
  src : String
  alt : Option String
deriving DecidableEq

/-- A normalized car record as consumed by createOrUpdateProduct. -/
structure Car where
  stockId : String
  title : String
  brand : Option String
  body : Option String
  features : List String
  fuel : Option String
  transmission : Option String
  drivetrain : Option String
  images : List ImageRef
  priceEur : JsNumber
  compareAtPriceEur : JsNumber
  vatType : Option String
  year : Option Int
  mileageKm : Option Int
  horsepower : Option Int
  displacementCc : Option Int
  url : Option String
deriving DecidableEq

/-- One row of the SQLite cars table (stock_id is its primary key). -/
structure CarRow where
  stock_id : String
  product_id : Nat
  variant_id : Nat
deriving DecidableEq

/-- The persisted mapping store: the rows of the cars table. -/
abbrev Store := List CarRow

/-- Result shape of getMapping: both ids, each possibly null. -/
structure Mapping where
  productId : Option Nat
  variantId : Option Nat
deriving DecidableEq

/-- Embedding of getMapping: SELECT by stock_id, nulls if absent. -/
def getMapping (store : Store) (stockId : String) : Mapping :=
  match store.find? (fun r => r.stock_id == stockId) with
  | none => ⟨none, none⟩
  | some r => ⟨some r.product_id, some r.variant_id⟩

/-- Embedding of setMapping: INSERT OR REPLACE keyed on the primary
key stock_id, so any previous row for the key is replaced whole. -/
def setMapping (store : Store) (stockId : String) (productId variantId : Nat) : Store :=
  store.filter (fun r => !(r.stock_id == stockId)) ++ [⟨stockId, productId, variantId⟩]

/-- Number of rows a store holds for one stock id. -/
def countKey (store : Store) (k : String) : Nat :=
  store.countP (fun r => r.stock_id == k)

/-- Environment configuration read by shopifyApi: the shop domain
(SHOPIFY_SHOP, defaulted to the empty string) and the admin token
(SHOPIFY_ADMIN_TOKEN). -/
structure Config where
  shop : Option String
  token : Option String
deriving DecidableEq

/-- Errors thrown by the embedded engine code. -/
inductive SyncError where
  | shopNotDefined
  | tokenNotDefined
  | remote (msg : String)
  | productIdMissing
deriving DecidableEq

/-- The credential checks shopifyApi performs before issuing any HTTP
request: a falsy shop domain or admin token throws. -/
def shopifyGuard (cfg : Config) : Except SyncError Unit :=
  if jsTruthyStr cfg.shop = false then .error .shopNotDefined
  else if jsTruthyStr cfg.token = false then .error .tokenNotDefined
  else .ok ()

/-- One image entry of a Shopify product payload. -/
structure ImagePayload where
  src : String
  alt : String
deriving DecidableEq

/-- One metafield entry of a Shopify product payload. -/
structure Metafield where
  ns : String
  key : String
  value : String
  mtype : String
deriving DecidableEq

/-- The push helper inside buildMetafields: skip undefined, null and
empty values, otherwise append a specs-namespaced entry. -/
def pushField (fields : List Metafield) (key : String) (value : Option String)
    (mtype : String) : List Metafield :=
  match value with
  | none => fields
  | some v => if v = "" then fields else fields ++ [⟨"specs", key, v, mtype⟩]

/-- Embedding of buildMetafields: the metafield list for a car, in the
push order of the source. -/
def buildMetafields (car : Car) : List Metafield :=
  let f0 : List Metafield := []
  let f1 := pushField f0 "stock_id" (some car.stockId) "single_line_text_field"
  let f2 := pushField f1 "vat" car.vatType "single_line_text_field"
  let f3 := pushField f2 "year" (car.year.map toString) "number_integer"
  let f4 := pushField f3 "mileage_km" (car.mileageKm.map toString) "number_integer"
  let f5 := pushField f4 "horsepower" (car.horsepower.map toString) "number_integer"
  let f6 := pushField f5 "displacement_cc" (car.displacementCc.map toString) "number_integer"
  let f7 := pushField f6 "fuel" car.fuel "single_line_text_field"
  let f8 := pushField f7 "transmission" car.transmission "single_line_text_field"
  let f9 := pushField f8 "drivetrain" car.drivetrain "single_line_text_field"
  let f10 := pushField f9 "body" car.body "single_line_text_field"
  pushField f10 "url" car.url "url"

/-- The value car.field or [] as used in the tag concatenation: an
undefined or empty string contributes nothing, a non-empty string
contributes itself. -/
def optTagStrings : Option String → List String
  | none => []
  | some s => if s = "" then [] else [s]

/-- Worker of the first-occurrence deduplication: walk the list and
keep each element whose value was not seen before it. -/
def jsSetDedupGo : List String → List String → List String
  | [], _ => []
  | x :: xs, seen =>
    if seen.contains x then jsSetDedupGo xs seen
    else x :: jsSetDedupGo xs (x :: seen)

/-- First-occurrence deduplication, as Array.from(new Set(xs)) yields
the elements of xs in insertion order without repeats. -/
def jsSetDedup (l : List String) : List String := jsSetDedupGo l []

/-- The deduplicated, falsiness-filtered tag list of a car: features
then fuel, transmission and drivetrain, in source order. -/
def tagList (car : Car) : List String :=
  (jsSetDedup (car.features ++ optTagStrings car.fuel ++ optTagStrings car.transmission
      ++ optTagStrings car.drivetrain)).filter (fun s => !(s == ""))

/-- The comma-joined tags string sent in both payloads. -/
def tagsString (car : Car) : String :=
  String.intercalate ", " (tagList car)

/-- The body_html string: features joined by commas in a paragraph
tag, or empty when the record has no features. -/
def bodyHtml (car : Car) : String :=
  if car.features.length > 0 then "<p>" ++ String.intercalate ", " car.features ++ "</p>"
  else ""

/-- The images array of the payloads: alt falls back to the title. -/
def imagesPayload (car : Car) : List ImagePayload :=
  car.images.map (fun img => ⟨img.src, img.alt.getD car.title⟩)

/-- The single variant of a product-creation payload. -/
structure VariantCreate where
  sku : String
  price : Option String
  compare_at_price : Option String
  inventory_quantity : Nat
  inventory_management : String
deriving DecidableEq

/-- The product object POSTed to products.json on the create path. -/
structure CreateProductPayload where
  title : String
  vendor : String
  product_type : String
  body_html : String
  tags : String
  variants : List VariantCreate
  images : List ImagePayload
  metafields : List Metafield
deriving DecidableEq

/-- The product object PUT on the update path. -/
structure UpdateProductPayload where
  id : Nat
  title : String
  vendor : String
  product_type : String
  body_html : String
  tags : String
  images : List ImagePayload
  metafields : List Metafield
deriving DecidableEq

/-- The variant object PUT on the update path. -/
structure UpdateVariantPayload where
  id : Nat
  price : Option String
  compare_at_price : Option String
  sku : String
deriving DecidableEq

/-- The creation payload built by createOrUpdateProduct. -/
def createProductPayload (car : Car) : CreateProductPayload where
  title := car.title
  vendor := car.brand.getD ""
  product_type := car.body.getD ""
  body_html := bodyHtml car
  tags := tagsString car
  variants := [{ sku := "AWG-" ++ car.stockId
                 price := formatMoney car.priceEur
                 compare_at_price := formatMoney car.compareAtPriceEur
                 inventory_quantity := 1
                 inventory_management := "shopify" }]
  images := imagesPayload car
  metafields := buildMetafields car

/-- The product-update payload built by createOrUpdateProduct. -/
def updateProductPayload (car : Car) (productId : Nat) : UpdateProductPayload where
  id := productId
  title := car.title
  vendor := car.brand.getD ""
  product_type := car.body.getD ""
  body_html := bodyHtml car
  tags := tagsString car
  images := imagesPayload car
  metafields := buildMetafields car

/-- The variant-update payload built by createOrUpdateProduct. -/
def updateVariantPayload (car : Car) (variantId : Nat) : UpdateVariantPayload where
  id := variantId
  price := formatMoney car.priceEur
  compare_at_price := formatMoney car.compareAtPriceEur
  sku := "AWG-" ++ car.stockId

/-- What the engine reads out of a product-creation response:
res.data.product.id and res.data.product.variants[0].id, the variant
id being null when the response carries no variants. -/
structure CreateResp where
  productId : Option Nat
  variantId : Option Nat
deriving DecidableEq

/-- The remote Shopify endpoint as an environment: what each of the
three HTTP calls would answer, an error modelling a failed request. -/
structure RemoteBehavior where
  create : CreateProductPayload → Except String CreateResp
  updateProduct : Nat → UpdateProductPayload → Except String Unit
  updateVariant : Nat → UpdateVariantPayload → Except String Unit

/-- A POST of products.json: the shopifyApi credential guard, then the
remote answer. -/
def callCreate (cfg : Config) (rb : RemoteBehavior) (p : CreateProductPayload) :
    Except SyncError CreateResp :=
  match shopifyGuard cfg with
  | .error e => .error e
  | .ok _ =>
    match rb.create p with
    | .error m => .error (.remote m)
    | .ok r => .ok r

/-- A PUT of one product: guard, then the remote answer. -/
def callUpdateProduct (cfg : Config) (rb : RemoteBehavior) (id : Nat)
    (p : UpdateProductPayload) : Except SyncError Unit :=
  match shopifyGuard cfg with
  | .error e => .error e
  | .ok _ =>
    match rb.updateProduct id p with
    | .error m => .error (.remote m)
    | .ok r => .ok r

/-- A PUT of one variant: guard, then the remote answer. -/
def callUpdateVariant (cfg : Config) (rb : RemoteBehavior) (id : Nat)
    (p : UpdateVariantPayload) : Except SyncError Unit :=
  match shopifyGuard cfg with
  | .error e => .error e
  | .ok _ =>
    match rb.updateVariant id p with
    | .error m => .error (.remote m)
    | .ok r => .ok r

/-- Resolution value of createOrUpdateProduct: created flag, the
product id as returned or stored, and variantId defaulted to 0. -/
structure SyncResult where
  created : Bool
  productId : Option Nat
  variantId : Nat
deriving DecidableEq

/-- The update branch of createOrUpdateProduct: it never writes the
store; it PUTs the product and, when the stored variant id is truthy,
the variant, and reports created = false with the stored ids. -/
def updatePath (cfg : Config) (rb : RemoteBehavior) (car : Car) (mapping : Mapping) :
    Except SyncError SyncResult :=
  if jsTruthyNat mapping.productId = false then .error .productIdMissing
  else
    match callUpdateProduct cfg rb (mapping.productId.getD 0)
        (updateProductPayload car (mapping.productId.getD 0)) with
    | .error e => .error e
    | .ok _ =>
      if jsTruthyNat mapping.variantId then
        match callUpdateVariant cfg rb (mapping.variantId.getD 0)
            (updateVariantPayload car (mapping.variantId.getD 0)) with
        | .error e => .error e
        | .ok _ => .ok ⟨false, mapping.productId, mapping.variantId.getD 0⟩
      else .ok ⟨false, mapping.productId, mapping.variantId.getD 0⟩

/-- Embedding of createOrUpdateProduct: look the key up, branch on the
truthiness of the stored product id, create (and on a response with
truthy ids persist the mapping) or update, returning the resolution
or thrown error together with the resulting store. -/
def createOrUpdateProduct (cfg : Config) (rb : RemoteBehavior) (store : Store) (car : Car) :
    Except SyncError SyncResult × Store :=
  let mapping := getMapping store car.stockId
  if jsTruthyNat mapping.productId = false then
    match callCreate cfg rb (createProductPayload car) with
    | .error e => (.error e, store)
    | .ok resp =>
      if jsTruthyNat resp.productId && jsTruthyNat resp.variantId then
        (.ok ⟨true, resp.productId, resp.variantId.getD 0⟩,
          setMapping store car.stockId (resp.productId.getD 0) (resp.variantId.getD 0))
      else
        (.ok ⟨true, resp.productId, resp.variantId.getD 0⟩, store)
  else
    (updatePath cfg rb car mapping, store)

/-- Aggregate reported by one import run. -/
structure ImportResult where
  total : Nat
  created : Nat
  updated : Nat
  failed : Nat
deriving DecidableEq

/-- The for-loop of the import handler and the CLI run function: each
record is synced in turn, a thrown error is caught and counted as
failed, and the loop continues with the next record. -/
def importLoop (cfg : Config) (rb : RemoteBehavior) :
    List Car → Store → Nat → Nat → Nat → (Nat × Nat × Nat) × Store
  | [], store, c, u, f => ((c, u, f), store)
  | car :: rest, store, c, u, f =>
    match createOrUpdateProduct cfg rb store car with
    | (.ok r, s2) =>
      if r.created then importLoop cfg rb rest s2 (c + 1) u f
      else importLoop cfg rb rest s2 c (u + 1) f
    | (.error _, s2) => importLoop cfg rb rest s2 c u (f + 1)

/-- One full import run over a fetched item list: the loop plus the
total = items.length reported in the response. -/
def runImport (cfg : Config) (rb : RemoteBehavior) (store : Store) (items : List Car) :
    ImportResult × Store :=
  let r := importLoop cfg rb items store 0 0 0
  (⟨items.length, r.1.1, r.1.2.1, r.1.2.2⟩, r.2)

deriving instance DecidableEq for Except

/-- Control state of one in-flight createOrUpdateProduct call, cut at
its await points: 0 = before the mapping lookup, 1 = after the lookup
(branch fixed by the mapping then seen), 2 = create branch after the
remote POST resolved, 3 = settled. -/
structure TaskState where
  pc : Nat
  mappingSeen : Mapping
  resp : Option CreateResp
  result : Option (Except SyncError SyncResult)
deriving DecidableEq

/-- A task that has not started yet. -/
def initTask : TaskState := ⟨0, ⟨none, none⟩, none, none⟩

/-- One atomic step of an in-flight sync against the shared store:
the segments of createOrUpdateProduct between its awaits.  The update
branch never writes the store, so it is taken in one step; the create
branch reads the store at the lookup, calls the remote after it, and
writes the mapping only when the response resolves. -/
def syncStep (cfg : Config) (rb : RemoteBehavior) (car : Car)
    (store : Store) (t : TaskState) : Store × TaskState :=
  match t.pc with
  | 0 => (store, { t with pc := 1, mappingSeen := getMapping store car.stockId })
  | 1 =>
    if jsTruthyNat t.mappingSeen.productId = false then
      match callCreate cfg rb (createProductPayload car) with
      | .error e => (store, { t with pc := 3, result := some (.error e) })
      | .ok resp => (store, { t with pc := 2, resp := some resp })
    else
      (store, { t with pc := 3, result := some (updatePath cfg rb car t.mappingSeen) })
  | 2 =>
    match t.resp with
    | none => (store, { t with pc := 3 })
    | some resp =>
      if jsTruthyNat resp.productId && jsTruthyNat resp.variantId then
        (setMapping store car.stockId (resp.productId.getD 0) (resp.variantId.getD 0),
          { t with pc := 3,
                   result := some (.ok ⟨true, resp.productId, resp.variantId.getD 0⟩) })
      else
        (store, { t with pc := 3,
                         result := some (.ok ⟨true, resp.productId, resp.variantId.getD 0⟩) })
  | _ => (store, t)

/-- Two overlapping syncs of the same car against one shared store,
driven by an explicit schedule: true steps the first sync, false the
second.  Each sync carries its own remote behavior, since each remote
POST is a distinct HTTP exchange. -/
def runSched (cfg : Config) (rbA rbB : RemoteBehavior) (car : Car) :
    List Bool → Store × TaskState × TaskState → Store × TaskState × TaskState
  | [], st => st
  | pick :: rest, (store, a, b) =>
    if pick then
      let s := syncStep cfg rbA car store a
      runSched cfg rbA rbB car rest (s.1, s.2, b)
    else
      let s := syncStep cfg rbB car store b
      runSched cfg rbA rbB car rest (s.1, a, s.2)

/-- A valid configuration used by concrete witnesses. -/
def cfgDemo : Config := ⟨some "example.myshopify.com", some "shpat-token"⟩

/-- A configuration with the admin token unset. -/
def cfgNoToken : Config := ⟨some "example.myshopify.com", none⟩

/-- A concrete record used by witnesses: note the overlap between the
features list and the fuel attribute. -/
def carX : Car where
  stockId := "X1"
  title := "Skoda Octavia"
  brand := some "Skoda"
  body := some "Sedan"
  features := ["Diesel", "Navigatie"]
  fuel := some "Diesel"
  transmission := some "Automata"
  drivetrain := none
  images := [⟨"https://img.example/1.jpg", none⟩]
  priceEur := .num (123456 / 10)
  compareAtPriceEur := .undef
  vatType := some "Deductibil"
  year := some 2019
  mileageKm := some 120000
  horsepower := some 150
  displacementCc := some 1968
  url := some "https://www.autoworldgrup.ro/x1"

/-- A remote endpoint that answers every call successfully, returning
product id 1 and variant id 2 on creation. -/
def rbDemo : RemoteBehavior where
  create := fun _ => .ok ⟨some 1, some 2⟩
  updateProduct := fun _ _ => .ok ()
  updateVariant := fun _ _ => .ok ()

/-- A remote endpoint whose creation answers product id 3 and variant
id 4, used as the second HTTP exchange in interleaving runs. -/
def rbDemoB : RemoteBehavior where
  create := fun _ => .ok ⟨some 3, some 4⟩
  updateProduct := fun _ _ => .ok ()
  updateVariant := fun _ _ => .ok ()

/-- A remote endpoint whose creation succeeds with a product that has
no variants, as the guard productId && variantId anticipates. -/
def rbNoVariant : RemoteBehavior where
  create := fun _ => .ok ⟨some 5, none⟩
  updateProduct := fun _ _ => .ok ()
  updateVariant := fun _ _ => .ok ()

/-! Helper lemmas about the store, truthiness and the call wrappers. -/

theorem jsTruthyNat_some_iff (n : Nat) : jsTruthyNat (some n) = true ↔ n ≠ 0 := by
  simp [jsTruthyNat]

theorem jsTruthyNat_none : jsTruthyNat none = false := rfl

theorem getMapping_eq_none (s : Store) (k : String) (h : countKey s k = 0) :
    getMapping s k = ⟨none, none⟩ := by
  have hall : ∀ r ∈ s, ¬(r.stock_id == k) = true := List.countP_eq_zero.mp h
  unfold getMapping
  rw [List.find?_eq_none.mpr hall]

theorem find?_key_filter_out (s : Store) (k : String) :
    (s.filter (fun r => !(r.stock_id == k))).find? (fun r => r.stock_id == k) = none := by
  apply List.find?_eq_none.mpr
  intro r hr
  have := (List.mem_filter.mp hr).2
  simpa using this

theorem getMapping_setMapping_self (s : Store) (k : String) (p v : Nat) :
    getMapping (setMapping s k p v) k = ⟨some p, some v⟩ := by
  unfold getMapping setMapping
  rw [List.find?_append, find?_key_filter_out s k]
  simp [List.find?_cons]

theorem countKey_setMapping_self (s : Store) (k : String) (p v : Nat) :
    countKey (setMapping s k p v) k = 1 := by
  unfold countKey setMapping
  rw [List.countP_append, List.countP_filter]
  have h0 : (s.countP fun a => (a.stock_id == k) && !(a.stock_id == k)) = 0 := by
    apply List.countP_eq_zero.mpr
    intro r _
    cases hb : (r.stock_id == k) <;> simp [hb]
  rw [h0]
  simp [List.countP_cons]

theorem countKey_setMapping_other (s : Store) (k k2 : String) (p v : Nat)
    (hne : k2 ≠ k) : countKey (setMapping s k p v) k2 = countKey s k2 := by
  unfold countKey setMapping
  rw [List.countP_append, List.countP_filter]
  have hkk : (k == k2) = false := by
    simp only [beq_eq_false_iff_ne]
    exact fun h => hne h.symm
  have hrow : List.countP (fun r => r.stock_id == k2)
      [CarRow.mk k p v] = 0 := by
    simp [List.countP_cons, hkk]
  rw [hrow]
  have hcongr : (s.countP fun a => (a.stock_id == k2) && !(a.stock_id == k)) =
      s.countP fun a => a.stock_id == k2 := by
    apply List.countP_congr
    intro r _
    by_cases h2 : (r.stock_id == k2) = true
    · have hr2 : r.stock_id = k2 := by simpa using h2
      have hrk : (r.stock_id == k) = false := by
        simp only [beq_eq_false_iff_ne, hr2]
        exact hne
      simp [h2, hrk]
    · have hf2 : (r.stock_id == k2) = false := by simpa using h2
      simp [hf2]
  rw [hcongr]
  simp

theorem callCreate_ok_inv (cfg : Config) (rb : RemoteBehavior) (p : CreateProductPayload)
    (r : CreateResp) (h : callCreate cfg rb p = .ok r) : rb.create p = .ok r := by
  unfold callCreate at h
  cases hg : shopifyGuard cfg with
  | error e => rw [hg] at h; exact absurd h (by simp)
  | ok u =>
    rw [hg] at h
    cases hc : rb.create p with
    | error m => rw [hc] at h; exact absurd h (by simp)
    | ok r2 => rw [hc] at h; simpa using h

theorem shopifyGuard_ok_of_truthy (cfg : Config) (hs : jsTruthyStr cfg.shop = true)
    (ht : jsTruthyStr cfg.token = true) : shopifyGuard cfg = .ok () := by
  simp [shopifyGuard, hs, ht]

theorem shopifyGuard_error_of_missing (cfg : Config)
    (h : jsTruthyStr cfg.shop = false ∨ jsTruthyStr cfg.token = false) :
    ∃ e, shopifyGuard cfg = .error e := by
  unfold shopifyGuard
  rcases h with h | h
  · exact ⟨.shopNotDefined, by simp [h]⟩
  · by_cases hs : jsTruthyStr cfg.shop = false
    · exact ⟨.shopNotDefined, by simp [hs]⟩
    · have hs2 : jsTruthyStr cfg.shop = true := by simpa using hs
      exact ⟨.tokenNotDefined, by simp [hs2, h]⟩

theorem createOrUpdateProduct_def (cfg : Config) (rb : RemoteBehavior)
    (store : Store) (car : Car) :
    createOrUpdateProduct cfg rb store car =
      if jsTruthyNat (getMapping store car.stockId).productId = false then
        match callCreate cfg rb (createProductPayload car) with
        | .error e => (.error e, store)
        | .ok resp =>
          if jsTruthyNat resp.productId && jsTruthyNat resp.variantId then
            (.ok ⟨true, resp.productId, resp.variantId.getD 0⟩,
              setMapping store car.stockId (resp.productId.getD 0) (resp.variantId.getD 0))
          else
            (.ok ⟨true, resp.productId, resp.variantId.getD 0⟩, store)
      else
        (updatePath cfg rb car (getMapping store car.stockId), store) := rfl

theorem createOrUpdateProduct_create_success (cfg : Config) (rb : RemoteBehavior)
    (store : Store) (car : Car) (resp : CreateResp) (pid vid : Nat)
    (hcount : countKey store car.stockId = 0)
    (hguard : shopifyGuard cfg = .ok ())
    (hcr : rb.create (createProductPayload car) = .ok resp)
    (hp : resp.productId = some pid) (hp0 : pid ≠ 0)
    (hv : resp.variantId = some vid) (hv0 : vid ≠ 0) :
    createOrUpdateProduct cfg rb store car =
      (.ok ⟨true, some pid, vid⟩, setMapping store car.stockId pid vid) := by
  unfold createOrUpdateProduct
  rw [getMapping_eq_none store car.stockId hcount]
  simp only [jsTruthyNat_none, Bool.false_eq_true, if_true]
  have hcall : callCreate cfg rb (createProductPayload car) = .ok resp := by
    unfold callCreate
    rw [hguard, hcr]
  rw [hcall]
  simp [hp, hv, jsTruthyNat, hp0, hv0]

theorem createOrUpdateProduct_create_error (cfg : Config) (rb : RemoteBehavior)
    (store : Store) (car : Car) (e : SyncError)
    (hcount : countKey store car.stockId = 0)
    (hcall : callCreate cfg rb (createProductPayload car) = .error e) :
    createOrUpdateProduct cfg rb store car = (.error e, store) := by
  unfold createOrUpdateProduct
  rw [getMapping_eq_none store car.stockId hcount]
  simp only [jsTruthyNat_none, Bool.false_eq_true, if_true]
  rw [hcall]

theorem createOrUpdateProduct_create_no_ids (cfg : Config) (rb : RemoteBehavior)
    (store : Store) (car : Car) (resp : CreateResp)
    (hcount : countKey store car.stockId = 0)
    (hguard : shopifyGuard cfg = .ok ())
    (hcr : rb.create (createProductPayload car) = .ok resp)
    (hids : (jsTruthyNat resp.productId && jsTruthyNat resp.variantId) = false) :
    createOrUpdateProduct cfg rb store car =
      (.ok ⟨true, resp.productId, resp.variantId.getD 0⟩, store) := by
  unfold createOrUpdateProduct
  rw [getMapping_eq_none store car.stockId hcount]
  simp only [jsTruthyNat_none, Bool.false_eq_true, if_true]
  have hcall : callCreate cfg rb (createProductPayload car) = .ok resp := by
    unfold callCreate
    rw [hguard, hcr]
  rw [hcall]
  simp [hids]

theorem createOrUpdateProduct_update_branch (cfg : Config) (rb : RemoteBehavior)
    (store : Store) (car : Car) (p : Nat)
    (hmap : (getMapping store car.stockId).productId = some p) (hp0 : p ≠ 0) :
    createOrUpdateProduct cfg rb store car =
      (updatePath cfg rb car (getMapping store car.stockId), store) := by
  rw [createOrUpdateProduct_def, hmap]
  simp [jsTruthyNat, hp0]

theorem updatePath_success (cfg : Config) (rb : RemoteBehavior) (car : Car) (p v : Nat)
    (hp0 : p ≠ 0) (hv0 : v ≠ 0)
    (hguard : shopifyGuard cfg = .ok ())
    (hup : rb.updateProduct p (updateProductPayload car p) = .ok ())
    (huv : rb.updateVariant v (updateVariantPayload car v) = .ok ()) :
    updatePath cfg rb car ⟨some p, some v⟩ = .ok ⟨false, some p, v⟩ := by
  unfold updatePath
  have hcu : callUpdateProduct cfg rb p (updateProductPayload car p) = .ok () := by
    unfold callUpdateProduct
    rw [hguard, hup]
  have hcv : callUpdateVariant cfg rb v (updateVariantPayload car v) = .ok () := by
    unfold callUpdateVariant
    rw [hguard, huv]
  simp [jsTruthyNat, hp0, hv0, hcu, hcv]

theorem createOrUpdateProduct_config_error (cfg : Config) (rb : RemoteBehavior)
    (store : Store) (car : Car)
    (h : jsTruthyStr cfg.shop = false ∨ jsTruthyStr cfg.token = false) :
    ∃ e, createOrUpdateProduct cfg rb store car = (.error e, store) := by
  obtain ⟨e, hg⟩ := shopifyGuard_error_of_missing cfg h
  rw [createOrUpdateProduct_def]
  by_cases hb : jsTruthyNat (getMapping store car.stockId).productId = false
  · refine ⟨e, ?_⟩
    simp only [hb, if_true]
    have hcall : callCreate cfg rb (createProductPayload car) = .error e := by
      unfold callCreate
      rw [hg]
    rw [hcall]
  · have hb2 : jsTruthyNat (getMapping store car.stockId).productId = true := by
      simpa using hb
    refine ⟨e, ?_⟩
    rw [hb2]
    have hpath : updatePath cfg rb car (getMapping store car.stockId) = .error e := by
      unfold updatePath
      rw [hb2]
      have hcu : callUpdateProduct cfg rb ((getMapping store car.stockId).productId.getD 0)
          (updateProductPayload car ((getMapping store car.stockId).productId.getD 0)) =
          .error e := by
        unfold callUpdateProduct
        rw [hg]
      simp [hcu]
    simp [hpath]

theorem importLoop_counts (cfg : Config) (rb : RemoteBehavior) :
    ∀ (items : List Car) (store : Store) (c u f : Nat),
      (importLoop cfg rb items store c u f).1.1 +
        (importLoop cfg rb items store c u f).1.2.1 +
        (importLoop cfg rb items store c u f).1.2.2 = c + u + f + items.length := by
  intro items
  induction items with
  | nil => intro store c u f; simp [importLoop]
  | cons car rest ih =>
    intro store c u f
    simp only [importLoop]
    cases hc : createOrUpdateProduct cfg rb store car with
    | mk res s2 =>
      cases res with
      | ok r =>
        by_cases hcr : r.created = true
        · simp only [hcr, if_true]
          rw [ih s2 (c + 1) u f]
          simp [List.length_cons]
          omega
        · have : r.created = false := by simpa using hcr
          simp only [this, Bool.false_eq_true, if_false]
          rw [ih s2 c (u + 1) f]
          simp [List.length_cons]
          omega
      | error e =>
        rw [ih s2 c u (f + 1)]
        simp [List.length_cons]
        omega

theorem importLoop_config_error (cfg : Config) (rb : RemoteBehavior)
    (h : jsTruthyStr cfg.shop = false ∨ jsTruthyStr cfg.token = false) :
    ∀ (items : List Car) (store : Store) (c u f : Nat),
      importLoop cfg rb items store c u f = ((c, u, f + items.length), store) := by
  intro items
  induction items with
  | nil => intro store c u f; simp [importLoop]
  | cons car rest ih =>
    intro store c u f
    obtain ⟨e, he⟩ := createOrUpdateProduct_config_error cfg rb store car h
    simp only [importLoop, he]
    rw [ih store c u (f + 1)]
    simp [List.length_cons]
    omega

theorem jsTruthyNat_true_elim (o : Option Nat) (h : jsTruthyNat o = true) :
    ∃ n, o = some n ∧ n ≠ 0 := by
  cases o with
  | none => exact absurd h (by simp [jsTruthyNat])
  | some n =>
    refine ⟨n, rfl, ?_⟩
    simpa [jsTruthyNat] using h

theorem mem_optTagStrings (o : Option String) (t : String) :
    t ∈ optTagStrings o ↔ o = some t ∧ t ≠ "" := by
  cases o with
  | none => simp [optTagStrings]
  | some s =>
    by_cases hs : s = ""
    · subst hs
      simp only [optTagStrings, if_true]
      constructor
      · intro h; exact absurd h (by simp)
      · rintro ⟨h1, h2⟩
        exact absurd h1.symm (by simpa using h2)
    · simp only [optTagStrings, hs, if_false, if_neg hs]
      constructor
      · intro h
        have ht : t = s := by simpa using h
        subst ht
        exact ⟨rfl, hs⟩
      · rintro ⟨h1, _⟩
        have : s = t := by simpa using h1
        simp [this]

theorem mem_jsSetDedupGo (a : String) (l : List String) : ∀ (seen : List String),
    a ∈ jsSetDedupGo l seen ↔ a ∈ l ∧ a ∉ seen := by
  induction l with
  | nil => intro seen; simp [jsSetDedupGo]
  | cons x xs ih =>
    intro seen
    by_cases h : seen.contains x = true
    · have hx : x ∈ seen := by simpa using h
      rw [jsSetDedupGo]
      simp only [h, if_true, List.mem_cons]
      rw [ih seen]
      constructor
      · rintro ⟨hm, hs⟩
        exact ⟨Or.inr hm, hs⟩
      · rintro ⟨he | hm, hs⟩
        · exact absurd (he ▸ hx) hs
        · exact ⟨hm, hs⟩
    · have hx : x ∉ seen := by simpa using h
      have hf : seen.contains x = false := by simpa using h
      rw [jsSetDedupGo]
      simp only [hf, Bool.false_eq_true, if_false, List.mem_cons]
      rw [ih (x :: seen)]
      simp only [List.mem_cons]
      constructor
      · rintro (he | ⟨hm, hs⟩)
        · exact ⟨Or.inl he, he ▸ hx⟩
        · exact ⟨Or.inr hm, fun hms => hs (Or.inr hms)⟩
      · rintro ⟨he | hm, hs⟩
        · exact Or.inl he
        · by_cases hax : a = x
          · exact Or.inl hax
          · exact Or.inr ⟨hm, fun hms => by
              rcases hms with hms | hms
              · exact hax hms
              · exact hs hms⟩

theorem nodup_jsSetDedupGo (l : List String) : ∀ (seen : List String),
    (jsSetDedupGo l seen).Nodup := by
  induction l with
  | nil => intro seen; simp [jsSetDedupGo]
  | cons x xs ih =>
    intro seen
    by_cases h : seen.contains x = true
    · rw [jsSetDedupGo]
      simp only [h, if_true]
      exact ih seen
    · have hf : seen.contains x = false := by simpa using h
      rw [jsSetDedupGo]
      simp only [hf, Bool.false_eq_true, if_false]
      refine List.nodup_cons.mpr ⟨?_, ih (x :: seen)⟩
      intro hmem
      have h2 := (mem_jsSetDedupGo x xs (x :: seen)).mp hmem
      exact h2.2 (List.mem_cons_self x seen)

theorem mem_jsSetDedup (a : String) (l : List String) : a ∈ jsSetDedup l ↔ a ∈ l := by
  rw [jsSetDedup, mem_jsSetDedupGo]
  simp

theorem nodup_jsSetDedup (l : List String) : (jsSetDedup l).Nodup :=
  nodup_jsSetDedupGo l []

/-- Running the three atomic steps of one sync to completion with no
interference in between is exactly createOrUpdateProduct: the step
machine of the concurrency analysis refines the sequential function. -/
theorem syncStep_run_single (cfg : Config) (rb : RemoteBehavior) (car : Car) (store : Store) :
    ((syncStep cfg rb car
        (syncStep cfg rb car (syncStep cfg rb car store initTask).1
          (syncStep cfg rb car store initTask).2).1
        (syncStep cfg rb car (syncStep cfg rb car store initTask).1
          (syncStep cfg rb car store initTask).2).2).1,
      (syncStep cfg rb car
        (syncStep cfg rb car (syncStep cfg rb car store initTask).1
          (syncStep cfg rb car store initTask).2).1
        (syncStep cfg rb car (syncStep cfg rb car store initTask).1
          (syncStep cfg rb car store initTask).2).2).2.result) =
      ((createOrUpdateProduct cfg rb store car).2,
        some (createOrUpdateProduct cfg rb store car).1) := by
  rw [createOrUpdateProduct_def]
  by_cases hb : jsTruthyNat (getMapping store car.stockId).productId = false
  · cases hc : callCreate cfg rb (createProductPayload car) with
    | error e => simp [syncStep, initTask, hb, hc]
    | ok resp =>
      by_cases hid : (jsTruthyNat resp.productId && jsTruthyNat resp.variantId) = true
      · simp [syncStep, initTask, hb, hc, hid]
      · have hid2 : (jsTruthyNat resp.productId && jsTruthyNat resp.variantId) = false := by
          simpa using hid
        simp [syncStep, initTask, hb, hc, hid2]
  · have hb2 : jsTruthyNat (getMapping store car.stockId).productId = true := by
      simpa using hb
    simp [syncStep, initTask, hb2]

/-- Case split on the store a sync leaves behind: either it is exactly
the input store, or the remote create succeeded with truthy ids and
the new store is the upsert of those ids under the key of the record. -/
theorem createOrUpdateProduct_store_cases (cfg : Config) (rb : RemoteBehavior)
    (store : Store) (car : Car) :
    (createOrUpdateProduct cfg rb store car).2 = store ∨
    ∃ resp pid vid, rb.create (createProductPayload car) = .ok resp ∧
      resp.productId = some pid ∧ pid ≠ 0 ∧ resp.variantId = some vid ∧ vid ≠ 0 ∧
      (createOrUpdateProduct cfg rb store car).1 = .ok ⟨true, some pid, vid⟩ ∧
      (createOrUpdateProduct cfg rb store car).2 =
        setMapping store car.stockId pid vid := by
  rw [createOrUpdateProduct_def]
  by_cases hb : jsTruthyNat (getMapping store car.stockId).productId = false
  · cases hc : callCreate cfg rb (createProductPayload car) with
    | error e => simp [hb, hc]
    | ok resp =>
      by_cases hid : (jsTruthyNat resp.productId && jsTruthyNat resp.variantId) = true
      · right
        have hidp : jsTruthyNat resp.productId = true := (Bool.and_eq_true _ _ |>.mp hid).1
        have hidv : jsTruthyNat resp.variantId = true := (Bool.and_eq_true _ _ |>.mp hid).2
        obtain ⟨pid, hp, hp0⟩ := jsTruthyNat_true_elim _ hidp
        obtain ⟨vid, hv, hv0⟩ := jsTruthyNat_true_elim _ hidv
        refine ⟨resp, pid, vid, callCreate_ok_inv cfg rb _ resp hc, hp, hp0, hv, hv0, ?_, ?_⟩
        · rw [if_pos hb]
          rw [hp] at hidp
          rw [hv] at hidv
          simp [hp, hv, hidp, hidv]
        · rw [if_pos hb]
          rw [hp] at hidp
          rw [hv] at hidv
          simp [hp, hv, hidp, hidv]
      · have hid2 : (jsTruthyNat resp.productId && jsTruthyNat resp.variantId) = false := by
          simpa using hid
        simp [hb, hc, hid2]
  · have hb2 : jsTruthyNat (getMapping store car.stockId).productId = true := by
      simpa using hb
    simp [hb2]

/-- First record of the failure-isolation scenario: an unseen car
whose creation succeeds. -/
def carA : Car := { carX with stockId := "A1", title := "Car A" }

/-- Second record of the failure-isolation scenario: its remote call
errors. -/
def carB : Car := { carX with stockId := "B1", title := "Fail me" }

/-- Third record of the failure-isolation scenario: already mapped,
so its sync is an update. -/
def carC : Car := { carX with stockId := "C1", title := "Car C" }

/-- Store holding a prior mapping for the third scenario record. -/
def storeIso : Store := [⟨"C1", 7, 8⟩]

/-- A remote endpoint that errors exactly on the payload of the second
scenario record and succeeds on everything else. -/
def rbIso : RemoteBehavior where
  create := fun p => if p.title == "Fail me" then .error "network error" else .ok ⟨some 10, some 20⟩
  updateProduct := fun _ _ => .ok ()
  updateVariant := fun _ _ => .ok ()

/-! Claim theorems. -/

/-- C1: for a record whose identity key has no existing mapping,
running createOrUpdateProduct twice in sequence with the remote calls
succeeding (the create answering truthy product and variant ids, the
two update calls acknowledging) yields created = true on the first
call, created = false with the same ids on the second, and afterwards
the mapping store holds exactly one row for the key. -/
theorem claim_C1_idempotent_convergence (cfg : Config) (rb : RemoteBehavior)
    (store : Store) (car : Car) (resp : CreateResp) (pid vid : Nat)
    (hcount : countKey store car.stockId = 0)
    (hshop : jsTruthyStr cfg.shop = true) (htok : jsTruthyStr cfg.token = true)
    (hcr : rb.create (createProductPayload car) = .ok resp)
    (hp : resp.productId = some pid) (hp0 : pid ≠ 0)
    (hv : resp.variantId = some vid) (hv0 : vid ≠ 0)
    (hup : rb.updateProduct pid (updateProductPayload car pid) = .ok ())
    (huv : rb.updateVariant vid (updateVariantPayload car vid) = .ok ()) :
    (createOrUpdateProduct cfg rb store car).1 = .ok ⟨true, some pid, vid⟩ ∧
    (createOrUpdateProduct cfg rb (createOrUpdateProduct cfg rb store car).2 car).1 =
      .ok ⟨false, some pid, vid⟩ ∧
    countKey (createOrUpdateProduct cfg rb
      (createOrUpdateProduct cfg rb store car).2 car).2 car.stockId = 1 := by
  have hguard := shopifyGuard_ok_of_truthy cfg hshop htok
  have h1 := createOrUpdateProduct_create_success cfg rb store car resp pid vid
    hcount hguard hcr hp hp0 hv hv0
  have hmap : getMapping (setMapping store car.stockId pid vid) car.stockId =
      ⟨some pid, some vid⟩ := getMapping_setMapping_self store car.stockId pid vid
  have h2 := createOrUpdateProduct_update_branch cfg rb
    (setMapping store car.stockId pid vid) car pid (by rw [hmap]) hp0
  have hpath := updatePath_success cfg rb car pid vid hp0 hv0 hguard hup huv
  refine ⟨by rw [h1], ?_, ?_⟩
  · rw [h1]
    simp only []
    rw [h2]
    simp only []
    rw [hmap]
    exact hpath
  · rw [h1]
    simp only []
    rw [h2]
    simp only []
    exact countKey_setMapping_self store car.stockId pid vid

/-- Witness for C1 at a concrete record, store and remote endpoint. -/
theorem claim_C1_witness :
    (createOrUpdateProduct cfgDemo rbDemo [] carX).1 = .ok ⟨true, some 1, 2⟩ ∧
    (createOrUpdateProduct cfgDemo rbDemo
      (createOrUpdateProduct cfgDemo rbDemo [] carX).2 carX).1 = .ok ⟨false, some 1, 2⟩ ∧
    countKey (createOrUpdateProduct cfgDemo rbDemo
      (createOrUpdateProduct cfgDemo rbDemo [] carX).2 carX).2 carX.stockId = 1 :=
  claim_C1_idempotent_convergence cfgDemo rbDemo [] carX ⟨some 1, some 2⟩ 1 2
    rfl (by decide) (by decide) rfl rfl (by decide) rfl (by decide) rfl rfl

/-- C8: for a record whose key already holds an engine-written mapping
(truthy product and variant ids) and whose remote update calls
acknowledge, createOrUpdateProduct takes the update path, reports
created = false carrying exactly the previously stored ids, and
returns the store unchanged: no row is written and no ids are minted. -/
theorem claim_C8_update_frame (cfg : Config) (rb : RemoteBehavior)
    (store : Store) (car : Car) (p v : Nat)
    (hmap : getMapping store car.stockId = ⟨some p, some v⟩)
    (hp0 : p ≠ 0) (hv0 : v ≠ 0)
    (hshop : jsTruthyStr cfg.shop = true) (htok : jsTruthyStr cfg.token = true)
    (hup : rb.updateProduct p (updateProductPayload car p) = .ok ())
    (huv : rb.updateVariant v (updateVariantPayload car v) = .ok ()) :
    createOrUpdateProduct cfg rb store car = (.ok ⟨false, some p, v⟩, store) := by
  have hguard := shopifyGuard_ok_of_truthy cfg hshop htok
  have h2 := createOrUpdateProduct_update_branch cfg rb store car p (by rw [hmap]) hp0
  rw [h2, hmap, updatePath_success cfg rb car p v hp0 hv0 hguard hup huv]

/-- Witness for C8 at a concrete pre-mapped store. -/
theorem claim_C8_witness :
    createOrUpdateProduct cfgDemo rbDemo [⟨"X1", 1, 2⟩] carX =
      (.ok ⟨false, some 1, 2⟩, [⟨"X1", 1, 2⟩]) :=
  claim_C8_update_frame cfgDemo rbDemo [⟨"X1", 1, 2⟩] carX 1 2
    (by decide) (by decide) (by decide) (by decide) (by decide) rfl rfl

/-- C10: the mapping store keeps at most one row per key across every
operation; a write replaces the whole row for its key last-write-wins
and leaves other keys untouched; the engine writes the store only when
the remote create succeeded with truthy ids, upserting under the key
of the record; and no operation ever deletes a row. -/
theorem claim_C10_store_invariants (cfg : Config) (rb : RemoteBehavior)
    (store : Store) (car : Car) (k sid : String) (p v : Nat) :
    countKey (setMapping store sid p v) sid = 1 ∧
    (k ≠ sid → countKey (setMapping store sid p v) k = countKey store k) ∧
    getMapping (setMapping store sid p v) sid = ⟨some p, some v⟩ ∧
    ((∀ k2, countKey store k2 ≤ 1) → ∀ k2, countKey (setMapping store sid p v) k2 ≤ 1) ∧
    ((createOrUpdateProduct cfg rb store car).2 ≠ store →
      ∃ resp pid vid, rb.create (createProductPayload car) = .ok resp ∧
        resp.productId = some pid ∧ pid ≠ 0 ∧ resp.variantId = some vid ∧ vid ≠ 0 ∧
        (createOrUpdateProduct cfg rb store car).1 = .ok ⟨true, some pid, vid⟩ ∧
        (createOrUpdateProduct cfg rb store car).2 =
          setMapping store car.stockId pid vid) ∧
    (∀ k2, 0 < countKey store k2 →
      0 < countKey (createOrUpdateProduct cfg rb store car).2 k2) := by
  refine ⟨countKey_setMapping_self store sid p v,
    fun hne => countKey_setMapping_other store sid k p v hne,
    getMapping_setMapping_self store sid p v, ?_, ?_, ?_⟩
  · intro hall k2
    by_cases hk : k2 = sid
    · subst hk
      rw [countKey_setMapping_self]
    · rw [countKey_setMapping_other store sid k2 p v hk]
      exact hall k2
  · intro hne
    rcases createOrUpdateProduct_store_cases cfg rb store car with h | h
    · exact absurd h hne
    · exact h
  · intro k2 hk2
    rcases createOrUpdateProduct_store_cases cfg rb store car with h | h
    · rw [h]; exact hk2
    · obtain ⟨resp, pid, vid, _, _, _, _, _, _, hs⟩ := h
      rw [hs]
      by_cases hk : k2 = car.stockId
      · subst hk
        rw [countKey_setMapping_self]
        exact Nat.zero_lt_one
      · rw [countKey_setMapping_other store car.stockId k2 pid vid hk]
        exact hk2

/-- Witness for C10: the conjuncts with hypotheses instantiated at a
concrete store, key pair and run. -/
theorem claim_C10_witness :
    countKey (setMapping [⟨"Y1", 3, 4⟩] "X1" 1 2) "X1" = 1 ∧
    countKey (setMapping [⟨"Y1", 3, 4⟩] "X1" 1 2) "Y1" = countKey [⟨"Y1", 3, 4⟩] "Y1" ∧
    (∀ k2, countKey (setMapping [⟨"Y1", 3, 4⟩] "X1" 1 2) k2 ≤ 1) ∧
    0 < countKey (createOrUpdateProduct cfgDemo rbDemo [⟨"Y1", 3, 4⟩] carX).2 "Y1" :=
  ⟨(claim_C10_store_invariants cfgDemo rbDemo [⟨"Y1", 3, 4⟩] carX "Y1" "X1" 1 2).1,
    (claim_C10_store_invariants cfgDemo rbDemo [⟨"Y1", 3, 4⟩] carX "Y1" "X1" 1 2).2.1
      (by decide),
    (claim_C10_store_invariants cfgDemo rbDemo [⟨"Y1", 3, 4⟩] carX "Y1" "X1" 1 2).2.2.2.1
      (by
        intro k2
        unfold countKey
        simp only [List.countP_cons, List.countP_nil]
        split <;> simp),
    (claim_C10_store_invariants cfgDemo rbDemo [⟨"Y1", 3, 4⟩] carX "Y1" "X1" 1 2).2.2.2.2.2
      "Y1" (by decide)⟩

/-- C4: for every batch, the aggregate reports total equal to the
number of fetched records and created plus updated plus failed equal
to total; and in the concrete three-record scenario where the remote
call of the second record errors, records one and three still report
Created and Updated while record two is counted Failed. -/
theorem claim_C4_failure_isolation (cfg : Config) (rb : RemoteBehavior)
    (store : Store) (items : List Car) :
    (runImport cfg rb store items).1.total = items.length ∧
    (runImport cfg rb store items).1.created + (runImport cfg rb store items).1.updated +
      (runImport cfg rb store items).1.failed = (runImport cfg rb store items).1.total ∧
    (runImport cfgDemo rbIso storeIso [carA, carB, carC]).1 = ⟨3, 1, 1, 1⟩ := by
  refine ⟨rfl, ?_, by decide⟩
  have h := importLoop_counts cfg rb items store 0 0 0
  simp only [runImport]
  simpa using h

theorem formatMoney_num_eq (q : ℚ) :
    formatMoney (.num q) = some (toFixed2 ((jsRound (q * 100) : ℚ) / 100)) := rfl

theorem toFixed2_of_round (q : ℚ) (c : ℤ) (h : jsRound (q * 100) = c) :
    toFixed2 q = (if c < 0 then "-" else "") ++ toString (c.natAbs / 100) ++ "." ++
      pad2 (c.natAbs % 100) := by
  unfold toFixed2
  rw [h]

theorem formatMoney_example_low : formatMoney (.num (123456 / 10)) = some "12345.60" := by
  have h1 : jsRound ((123456 / 10 : ℚ) * 100) = 1234560 := by
    unfold jsRound
    rw [Int.floor_eq_iff]
    constructor <;> norm_num
  rw [formatMoney_num_eq, h1]
  have h2 : jsRound ((((1234560 : ℤ) : ℚ)) / 100 * 100) = 1234560 := by
    unfold jsRound
    rw [Int.floor_eq_iff]
    constructor <;> norm_num
  rw [toFixed2_of_round _ _ h2]
  decide

theorem formatMoney_example_boundary :
    formatMoney (.num (19999995 / 1000)) = some "20000.00" := by
  have h1 : jsRound ((19999995 / 1000 : ℚ) * 100) = 2000000 := by
    unfold jsRound
    rw [Int.floor_eq_iff]
    constructor <;> norm_num
  rw [formatMoney_num_eq, h1]
  have h2 : jsRound ((((2000000 : ℤ) : ℚ)) / 100 * 100) = 2000000 := by
    unfold jsRound
    rw [Int.floor_eq_iff]
    constructor <;> norm_num
  rw [toFixed2_of_round _ _ h2]
  decide

/-- C5: formatMoney rounds a present numeric amount to the nearest
hundredth (ties toward positive infinity, the Math.round policy) and
renders it with two fixed decimals, mapping 12345.6 to 12345.60 and
the boundary value 19999.995 to 20000.00, while undefined, null and
NaN give undefined so that the price field of a payload carries none
and is omitted rather than sent as zero or null. -/
theorem claim_C5_money_formatting (q : ℚ) (car : Car) :
    formatMoney (.num (123456 / 10)) = some "12345.60" ∧
    formatMoney (.num (19999995 / 1000)) = some "20000.00" ∧
    formatMoney .undef = none ∧ formatMoney .null = none ∧ formatMoney .nan = none ∧
    (∃ c : ℤ, formatMoney (.num q) = some (toFixed2 ((c : ℚ) / 100)) ∧
      |(c : ℚ) - q * 100| ≤ 1 / 2) ∧
    (createProductPayload car).variants.map VariantCreate.price =
      [formatMoney car.priceEur] ∧
    (updateVariantPayload car 0).price = formatMoney car.priceEur := by
  refine ⟨formatMoney_example_low, formatMoney_example_boundary, rfl, rfl, rfl, ?_, rfl, rfl⟩
  refine ⟨jsRound (q * 100), rfl, ?_⟩
  simp only [jsRound]
  have h1 : ((Int.floor (q * 100 + 1 / 2) : ℤ) : ℚ) ≤ q * 100 + 1 / 2 :=
    Int.floor_le (q * 100 + 1 / 2)
  have h2 : q * 100 + 1 / 2 < ((Int.floor (q * 100 + 1 / 2) : ℤ) : ℚ) + 1 :=
    Int.lt_floor_add_one (q * 100 + 1 / 2)
  rw [abs_le]
  constructor <;> linarith

/-- C6 as amended: a missing shop domain or admin token is detected
only when a remote call for a record is attempted, not at startup;
each record of the batch fails with the thrown configuration error,
the batch still runs to completion reporting created = 0, updated = 0
and failed = total, and the mapping store is unchanged. -/
theorem claim_C6_config_not_fatal (cfg : Config) (rb : RemoteBehavior)
    (store : Store) (items : List Car)
    (h : jsTruthyStr cfg.shop = false ∨ jsTruthyStr cfg.token = false) :
    (runImport cfg rb store items).1 = ⟨items.length, 0, 0, items.length⟩ ∧
    (runImport cfg rb store items).2 = store := by
  have h2 := importLoop_config_error cfg rb h items store 0 0 0
  rw [runImport, h2]
  constructor <;> simp

/-- Witness for C6 at a configuration with no admin token. -/
theorem claim_C6_witness :
    (runImport cfgNoToken rbDemo [] [carX]).1 = ⟨1, 0, 0, 1⟩ ∧
    (runImport cfgNoToken rbDemo [] [carX]).2 = [] :=
  claim_C6_config_not_fatal cfgNoToken rbDemo [] [carX] (Or.inr rfl)

/-- Counterexample to C6 as stated: with the admin token missing, a
two-record import is not fatal at startup and does not leave the
records unprocessed; the loop attempts every record, counts each as
failed, and returns the normal aggregate with failed = 2. -/
theorem claim_C6_counterexample :
    (runImport cfgNoToken rbDemo [] [carX, carX]).1 = ⟨2, 0, 0, 2⟩ ∧
    ¬(runImport cfgNoToken rbDemo [] [carX, carX]).1.failed = 0 := by decide

/-- C3 as amended: on a create-branch sync, a failed remote create
writes nothing and rethrows; a successful create whose response
carries truthy product and variant ids upserts exactly those ids into
the store before the call resolves with created = true; a successful
create whose response lacks a truthy id resolves with created = true
but writes no mapping row. -/
theorem claim_C3_mapping_write_conditions (cfg : Config) (rb : RemoteBehavior)
    (store : Store) (car : Car)
    (hcount : countKey store car.stockId = 0)
    (hshop : jsTruthyStr cfg.shop = true) (htok : jsTruthyStr cfg.token = true) :
    (∀ m, rb.create (createProductPayload car) = .error m →
      createOrUpdateProduct cfg rb store car = (.error (.remote m), store)) ∧
    (∀ resp pid vid, rb.create (createProductPayload car) = .ok resp →
      resp.productId = some pid → pid ≠ 0 → resp.variantId = some vid → vid ≠ 0 →
      createOrUpdateProduct cfg rb store car =
        (.ok ⟨true, some pid, vid⟩, setMapping store car.stockId pid vid)) ∧
    (∀ resp, rb.create (createProductPayload car) = .ok resp →
      (jsTruthyNat resp.productId && jsTruthyNat resp.variantId) = false →
      createOrUpdateProduct cfg rb store car =
        (.ok ⟨true, resp.productId, resp.variantId.getD 0⟩, store)) := by
  have hguard := shopifyGuard_ok_of_truthy cfg hshop htok
  refine ⟨?_, ?_, ?_⟩
  · intro m hm
    apply createOrUpdateProduct_create_error cfg rb store car (.remote m) hcount
    unfold callCreate
    rw [hguard, hm]
  · intro resp pid vid hcr hp hp0 hv hv0
    exact createOrUpdateProduct_create_success cfg rb store car resp pid vid
      hcount hguard hcr hp hp0 hv hv0
  · intro resp hcr hids
    exact createOrUpdateProduct_create_no_ids cfg rb store car resp hcount hguard hcr hids

/-- Witness for C3 as amended, at a concrete creation that succeeds
with truthy ids. -/
theorem claim_C3_witness :
    createOrUpdateProduct cfgDemo rbDemo [] carX =
      (.ok ⟨true, some 1, 2⟩, setMapping [] carX.stockId 1 2) :=
  (claim_C3_mapping_write_conditions cfgDemo rbDemo [] carX rfl (by decide)
    (by decide)).2.1 ⟨some 1, some 2⟩ 1 2 rfl rfl (by decide) rfl (by decide)

/-- Counterexample to C3 as stated: a remote create that succeeds with
a product carrying no variant makes createOrUpdateProduct resolve
successfully with created = true, yet no mapping row is persisted, so
a row is not written if and only if the call reports success. -/
theorem claim_C3_counterexample :
    (createOrUpdateProduct cfgDemo rbNoVariant [] carX).1 = .ok ⟨true, some 5, 0⟩ ∧
    countKey (createOrUpdateProduct cfgDemo rbNoVariant [] carX).2 carX.stockId = 0 := by
  decide

/-- C2 as amended: the batch driver awaits each sync before starting
the next, so two records with the same unseen key inside one batch
yield exactly one Created then one Updated and one mapping row. -/
theorem claim_C2_sequential_batch (cfg : Config) (rb : RemoteBehavior)
    (store : Store) (car : Car) (resp : CreateResp) (pid vid : Nat)
    (hcount : countKey store car.stockId = 0)
    (hshop : jsTruthyStr cfg.shop = true) (htok : jsTruthyStr cfg.token = true)
    (hcr : rb.create (createProductPayload car) = .ok resp)
    (hp : resp.productId = some pid) (hp0 : pid ≠ 0)
    (hv : resp.variantId = some vid) (hv0 : vid ≠ 0)
    (hup : rb.updateProduct pid (updateProductPayload car pid) = .ok ())
    (huv : rb.updateVariant vid (updateVariantPayload car vid) = .ok ()) :
    (runImport cfg rb store [car, car]).1 = ⟨2, 1, 1, 0⟩ ∧
    countKey (runImport cfg rb store [car, car]).2 car.stockId = 1 := by
  have hguard := shopifyGuard_ok_of_truthy cfg hshop htok
  have h1 := createOrUpdateProduct_create_success cfg rb store car resp pid vid
    hcount hguard hcr hp hp0 hv hv0
  have hmap : getMapping (setMapping store car.stockId pid vid) car.stockId =
      ⟨some pid, some vid⟩ := getMapping_setMapping_self store car.stockId pid vid
  have h2b : createOrUpdateProduct cfg rb (setMapping store car.stockId pid vid) car =
      (.ok ⟨false, some pid, vid⟩, setMapping store car.stockId pid vid) := by
    rw [createOrUpdateProduct_update_branch cfg rb _ car pid (by rw [hmap]) hp0, hmap,
      updatePath_success cfg rb car pid vid hp0 hv0 hguard hup huv]
  constructor
  · simp [runImport, importLoop, h1, h2b]
  · simp [runImport, importLoop, h1, h2b, countKey_setMapping_self]

/-- Witness for C2 as amended, at a concrete two-record batch. -/
theorem claim_C2_witness :
    (runImport cfgDemo rbDemo [] [carX, carX]).1 = ⟨2, 1, 1, 0⟩ ∧
    countKey (runImport cfgDemo rbDemo [] [carX, carX]).2 carX.stockId = 1 :=
  claim_C2_sequential_batch cfgDemo rbDemo [] carX ⟨some 1, some 2⟩ 1 2
    rfl (by decide) (by decide) rfl rfl (by decide) rfl (by decide) rfl rfl

/-- Counterexample to C2 as stated: no per-key in-flight set exists in
the code, and when two syncs of the same unseen key interleave at
their await points (both lookups before either write, the schedule
A-lookup, B-lookup, A-create, A-write, B-create, B-write), both
resolve with created = true, issuing two remote creates; only the
mapping row is single, by last-write-wins. -/
theorem claim_C2_counterexample :
    ((runSched cfgDemo rbDemo rbDemoB carX [true, false, true, true, false, false]
        ([], initTask, initTask)).2.1.result = some (.ok ⟨true, some 1, 2⟩)) ∧
    ((runSched cfgDemo rbDemo rbDemoB carX [true, false, true, true, false, false]
        ([], initTask, initTask)).2.2.result = some (.ok ⟨true, some 3, 4⟩)) ∧
    countKey (runSched cfgDemo rbDemo rbDemoB carX [true, false, true, true, false, false]
        ([], initTask, initTask)).1 carX.stockId = 1 := by
  decide

/-- C9: the tag list of a record is duplicate-free; a string is a tag
exactly when it is non-empty and occurs among the features or equals
the fuel, transmission or drivetrain attribute; the same tags string
is sent in the create and update payloads; and the concrete record
with feature Diesel and fuel Diesel carries the tag Diesel once. -/
theorem claim_C9_tag_dedup (car : Car) (t : String) (pid : Nat) :
    (tagList car).Nodup ∧
    (t ∈ tagList car ↔ t ≠ "" ∧ (t ∈ car.features ∨ car.fuel = some t ∨
      car.transmission = some t ∨ car.drivetrain = some t)) ∧
    (createProductPayload car).tags = tagsString car ∧
    (updateProductPayload car pid).tags = tagsString car ∧
    (tagList carX).count "Diesel" = 1 := by
  refine ⟨?_, ?_, rfl, rfl, by decide⟩
  · exact (nodup_jsSetDedup _).filter _
  · unfold tagList
    rw [List.mem_filter, mem_jsSetDedup]
    simp only [List.mem_append, mem_optTagStrings]
    constructor
    · rintro ⟨hmem, hne⟩
      have hne2 : t ≠ "" := by simpa using hne
      exact ⟨hne2, by tauto⟩
    · rintro ⟨hne, hsrc⟩
      refine ⟨by tauto, by simpa using hne⟩

end Autoworld
